import Mathlib

/-!
Shallow embedding of `src/tssc/step_implementers/sign_container_image/curl_push.py`
(`CurlPush._run_step` and `CurlPush.__curl_file`), together with executable models
of the library facilities the code uses: `hashlib.md5` / `hashlib.sha1` (RFC 1321
MD5 and FIPS 180 SHA-1 over byte lists), Python `re.sub(r'/$', '', s)`, and the
`sh` library's `ErrorReturnCode` exception text.
-/

set_option maxRecDepth 100000

namespace CurlPush

/-! ### 32-bit word helpers (bytes and words are `Nat`, reduced mod 2^32) -/

def w32 : Nat := 4294967296

def rotl32 (x n : Nat) : Nat :=
  (((x <<< n) % w32) ||| (x >>> (32 - n))) % w32

/-! ### MD5 (model of `hashlib.md5(...).hexdigest()`), RFC 1321 -/

def md5_s : List Nat :=
  [7, 12, 17, 22, 7, 12, 17, 22, 7, 12, 17, 22, 7, 12, 17, 22,
   5, 9, 14, 20, 5, 9, 14, 20, 5, 9, 14, 20, 5, 9, 14, 20,
   4, 11, 16, 23, 4, 11, 16, 23, 4, 11, 16, 23, 4, 11, 16, 23,
   6, 10, 15, 21, 6, 10, 15, 21, 6, 10, 15, 21, 6, 10, 15, 21]

def md5_K : List Nat :=
  [0xd76aa478, 0xe8c7b756, 0x242070db, 0xc1bdceee,
   0xf57c0faf, 0x4787c62a, 0xa8304613, 0xfd469501,
   0x698098d8, 0x8b44f7af, 0xffff5bb1, 0x895cd7be,
   0x6b901122, 0xfd987193, 0xa679438e, 0x49b40821,
   0xf61e2562, 0xc040b340, 0x265e5a51, 0xe9b6c7aa,
   0xd62f105d, 0x02441453, 0xd8a1e681, 0xe7d3fbc8,
   0x21e1cde6, 0xc33707d6, 0xf4d50d87, 0x455a14ed,
   0xa9e3e905, 0xfcefa3f8, 0x676f02d9, 0x8d2a4c8a,
   0xfffa3942, 0x8771f681, 0x6d9d6122, 0xfde5380c,
   0xa4beea44, 0x4bdecfa9, 0xf6bb4b60, 0xbebfbc70,
   0x289b7ec6, 0xeaa127fa, 0xd4ef3085, 0x04881d05,
   0xd9d4d039, 0xe6db99e5, 0x1fa27cf8, 0xc4ac5665,
   0xf4292244, 0x432aff97, 0xab9423a7, 0xfc93a039,
   0x655b59c3, 0x8f0ccc92, 0xffeff47d, 0x85845dd1,
   0x6fa87e4f, 0xfe2ce6e0, 0xa3014314, 0x4e0811a1,
   0xf7537e82, 0xbd3af235, 0x2ad7d2bb, 0xeb86d391]

def md5_F (b c d : Nat) : Nat := (b &&& c) ||| ((b ^^^ 0xffffffff) &&& d)
def md5_G (b c d : Nat) : Nat := (d &&& b) ||| ((d ^^^ 0xffffffff) &&& c)
def md5_H (b c d : Nat) : Nat := b ^^^ c ^^^ d
def md5_I (b c d : Nat) : Nat := c ^^^ (b ||| (d ^^^ 0xffffffff))

def le_word (bs : List Nat) (j : Nat) : Nat :=
  bs.getD j 0 + bs.getD (j + 1) 0 * 256 + bs.getD (j + 2) 0 * 65536 +
    bs.getD (j + 3) 0 * 16777216

def md5_words (chunk : List Nat) : List Nat :=
  (List.range 16).map (fun k => le_word chunk (4 * k))

def md5_step (M : List Nat) (st : Nat × Nat × Nat × Nat) (i : Nat) :
    Nat × Nat × Nat × Nat :=
  let (a, b, c, d) := st
  let f :=
    if i < 16 then md5_F b c d
    else if i < 32 then md5_G b c d
    else if i < 48 then md5_H b c d
    else md5_I b c d
  let g :=
    if i < 16 then i
    else if i < 32 then (5 * i + 1) % 16
    else if i < 48 then (3 * i + 5) % 16
    else (7 * i) % 16
  let f2 := (f + a + md5_K.getD i 0 + M.getD g 0) % w32
  (d, (b + rotl32 f2 (md5_s.getD i 0)) % w32, b, c)

def md5_chunk (st : Nat × Nat × Nat × Nat) (chunk : List Nat) :
    Nat × Nat × Nat × Nat :=
  let M := md5_words chunk
  let (a, b, c, d) := (List.range 64).foldl (md5_step M) st
  let (a0, b0, c0, d0) := st
  ((a0 + a) % w32, (b0 + b) % w32, (c0 + c) % w32, (d0 + d) % w32)

def md5_init : Nat × Nat × Nat × Nat :=
  (0x67452301, 0xefcdab89, 0x98badcfe, 0x10325476)

/-- Little-endian 8-byte encoding of a bit length. -/
def le8 (n : Nat) : List Nat :=
  [n % 256, n / 256 % 256, n / 65536 % 256, n / 16777216 % 256,
   n / 4294967296 % 256, n / 1099511627776 % 256,
   n / 281474976710656 % 256, n / 72057594037927936 % 256]

def be8 (n : Nat) : List Nat := (le8 n).reverse

def md5_pad (msg : List Nat) : List Nat :=
  msg ++ [128] ++ List.replicate ((119 - msg.length % 64) % 64) 0 ++
    le8 (8 * msg.length)

/-- Split a byte list into 64-byte chunks; the fuel argument (instantiated with
the list length, which bounds the number of chunks) keeps the recursion
structural. -/
def chunks64_go : Nat → List Nat → List (List Nat)
  | 0, _ => []
  | _, [] => []
  | fuel + 1, a :: rest => ((a :: rest).take 64) :: chunks64_go fuel (rest.drop 63)

def chunks64 (l : List Nat) : List (List Nat) := chunks64_go l.length l

def word_le_bytes (w : Nat) : List Nat :=
  [w % 256, w / 256 % 256, w / 65536 % 256, w / 16777216 % 256]

def word_be_bytes (w : Nat) : List Nat :=
  [w / 16777216 % 256, w / 65536 % 256, w / 256 % 256, w % 256]

def md5_bytes (msg : List Nat) : List Nat :=
  let (a, b, c, d) := (chunks64 (md5_pad msg)).foldl md5_chunk md5_init
  word_le_bytes a ++ word_le_bytes b ++ word_le_bytes c ++ word_le_bytes d

def hexDigitChar (n : Nat) : Char :=
  if n < 10 then Char.ofNat (48 + n) else Char.ofNat (87 + n)

def byteToHex (b : Nat) : String :=
  String.mk [hexDigitChar (b / 16), hexDigitChar (b % 16)]

def bytesToHex (bs : List Nat) : String :=
  String.join (bs.map byteToHex)

def md5_hexdigest (msg : List Nat) : String := bytesToHex (md5_bytes msg)

/-! ### SHA-1 (model of `hashlib.sha1(...).hexdigest()`), FIPS 180 -/

def sha1_init : Nat × Nat × Nat × Nat × Nat :=
  (0x67452301, 0xEFCDAB89, 0x98BADCFE, 0x10325476, 0xC3D2E1F0)

def be_word (bs : List Nat) (j : Nat) : Nat :=
  bs.getD j 0 * 16777216 + bs.getD (j + 1) 0 * 65536 +
    bs.getD (j + 2) 0 * 256 + bs.getD (j + 3) 0

def sha1_words (chunk : List Nat) : List Nat :=
  (List.range 16).map (fun k => be_word chunk (4 * k))

/-- Extend the 16 message words to the 80-entry SHA-1 schedule:
`w i = rotl1 (w (i-3) xor w (i-8) xor w (i-14) xor w (i-16))` for `16 ≤ i < 80`. -/
def sha1_schedule (ws : List Nat) : List Nat :=
  (List.range 64).foldl
    (fun acc k =>
      acc ++ [rotl32 ((acc.getD (k + 13) 0) ^^^ (acc.getD (k + 8) 0) ^^^
        (acc.getD (k + 2) 0) ^^^ (acc.getD k 0)) 1])
    ws

def sha1_step (W : List Nat) (st : Nat × Nat × Nat × Nat × Nat) (i : Nat) :
    Nat × Nat × Nat × Nat × Nat :=
  let (a, b, c, d, e) := st
  let f :=
    if i < 20 then (b &&& c) ||| ((b ^^^ 0xffffffff) &&& d)
    else if i < 40 then b ^^^ c ^^^ d
    else if i < 60 then (b &&& c) ||| (b &&& d) ||| (c &&& d)
    else b ^^^ c ^^^ d
  let k :=
    if i < 20 then 0x5A827999
    else if i < 40 then 0x6ED9EBA1
    else if i < 60 then 0x8F1BBCDC
    else 0xCA62C1D6
  let temp := (rotl32 a 5 + f + e + k + W.getD i 0) % w32
  (temp, a, rotl32 b 30, c, d)

def sha1_pad (msg : List Nat) : List Nat :=
  msg ++ [128] ++ List.replicate ((119 - msg.length % 64) % 64) 0 ++
    be8 (8 * msg.length)

def sha1_chunk (st : Nat × Nat × Nat × Nat × Nat) (chunk : List Nat) :
    Nat × Nat × Nat × Nat × Nat :=
  let W := sha1_schedule (sha1_words chunk)
  let (a, b, c, d, e) := (List.range 80).foldl (sha1_step W) st
  let (h0, h1, h2, h3, h4) := st
  ((h0 + a) % w32, (h1 + b) % w32, (h2 + c) % w32, (h3 + d) % w32,
   (h4 + e) % w32)

def sha1_bytes (msg : List Nat) : List Nat :=
  let (a, b, c, d, e) := (chunks64 (sha1_pad msg)).foldl sha1_chunk sha1_init
  word_be_bytes a ++ word_be_bytes b ++ word_be_bytes c ++ word_be_bytes d ++
    word_be_bytes e

def sha1_hexdigest (msg : List Nat) : String := bytesToHex (sha1_bytes msg)

/-- The bytes of `b"hello"`. -/
def hello_bytes : List Nat := [104, 101, 108, 108, 111]

example : md5_hexdigest hello_bytes = "5d41402abc4b2a76b9719d911017c592" := by
  decide

example : sha1_hexdigest hello_bytes = "aaf4c61ddcc5e8a2dabede0f3b482cd9aea9434d" := by
  decide

/-! ### Python `re.sub(r'/$', '', s)`

Python's `$` (without `re.MULTILINE`) matches at the end of the string and also
just before a newline that is the last character, so `re.sub(r'/$', '', s)`
removes a single `'/'` that is the last character, or a single `'/'` standing
immediately before a final newline.  At most one replacement ever happens.  We
work on the reversed character list of the string. -/

def sub_slash_dollar_rev : List Char → List Char
  | [] => []
  | [c1] => if c1 = '/' then [] else [c1]
  | c1 :: c2 :: rest =>
    if c1 = '\n' ∧ c2 = '/' then c1 :: rest
    else if c1 = '/' then c2 :: rest
    else c1 :: c2 :: rest

def re_sub_slash_dollar (s : String) : String :=
  String.mk (sub_slash_dollar_rev s.data.reverse).reverse

example : re_sub_slash_dollar "https://example.com/sig//" = "https://example.com/sig/" := by
  decide

example : re_sub_slash_dollar "a/\n" = "a\n" := by
  decide

/-- `f"{signature_server_url}/{container_image_signature_name}"` after the
`re.sub` strip, as built at the start of `CurlPush.__curl_file`. -/
def signature_url (signature_server_url container_image_signature_name : String) :
    String :=
  re_sub_slash_dollar signature_server_url ++ "/" ++ container_image_signature_name

/-! ### Model of the `sh` library's curl invocation and `ErrorReturnCode` -/

/-- A nonzero exit of the spawned `curl` process, as observed by the `sh`
library: exit code plus the (possibly truncated) stdout/stderr text that `sh`
embeds in the exception message. -/
structure ShFailure where
  exit_code : Nat
  stdout_s : String
  stderr_s : String
deriving DecidableEq

/-- `sh` resolves the program and joins it with its arguments to form
`ErrorReturnCode.full_cmd`. -/
def sh_full_cmd (args : List String) : String :=
  args.foldl (fun acc a => acc ++ " " ++ a) "curl"

/-- `str(error)` for `sh.ErrorReturnCode`: the `sh` library formats its
exception message as `"\n\n  RAN: {full_cmd}\n\n  STDOUT:\n{stdout}\n\n  STDERR:\n{stderr}"`
(stdout/stderr possibly truncated by `sh`; `full_cmd` never truncated). -/
def sh_error_str (args : List String) (f : ShFailure) : String :=
  "\n\n  RAN: " ++ sh_full_cmd args ++ "\n\n  STDOUT:\n" ++ f.stdout_s ++
    "\n\n  STDERR:\n" ++ f.stderr_s

/-! ### The step implementer -/

/-- Python exceptions that can escape the modelled code: `FileNotFoundError`
from `open(..., 'rb')` and the `RuntimeError` raised in `__curl_file`. -/
inductive PyError where
  | fileNotFound (path : String)
  | runtimeError (msg : String)
deriving DecidableEq

/-- Modelled from the spec: `tssc.step_result.StepResult` is not under `src/`;
per the spec a step result is a failed-or-successful outcome with a
human-readable message and named output artifacts. -/
structure StepResult where
  success : Bool
  message : String
  artifacts : List (String × String)
deriving DecidableEq

/-- Modelled from the spec: `StepResult.from_step_implementer` creates a fresh
result — successful, empty message, no artifacts yet. -/
def StepResult.from_step_implementer : StepResult :=
  { success := true, message := "", artifacts := [] }

/-- Observable side effects of one invocation, in order: prior-step result
lookups, the binary file read, and the `curl` subprocess call (the only network
activity). -/
inductive Event where
  | getResultValue (name : String)
  | fileRead (path : String)
  | curlPut (args : List String)
deriving DecidableEq

/-- The argument list passed to `sh.curl` in `CurlPush.__curl_file`, in source
order. -/
def curl_args (signature_file_sha1 signature_file_md5 signature_server_username
    signature_server_password container_image_signature_file_path
    container_image_signature_url : String) : List String :=
  ["-sSfv", "-X", "PUT",
   "--header", "X-Checksum-Sha1:" ++ signature_file_sha1,
   "--header", "X-Checksum-MD5:" ++ signature_file_md5,
   "--user", signature_server_username ++ ":" ++ signature_server_password,
   "--upload-file", container_image_signature_file_path,
   container_image_signature_url]

/-- `CurlPush.__curl_file`.  The filesystem is `fs` (path to byte contents;
`none` means missing/unreadable, in which case `open` raises
`FileNotFoundError`).  The curl transport is `net` (argument list to outcome;
`none` means exit 0, `some f` means a nonzero exit, which `sh` raises as
`ErrorReturnCode` and the source wraps into a `RuntimeError`).  Returns the
result of the call — the `(url, md5, sha1)` triple or the escaping exception —
together with the trace of file/network events. -/
def curl_file (fs : String → Option (List Nat)) (net : List String → Option ShFailure)
    (container_image_signature_file_path container_image_signature_name
     signature_server_url signature_server_username signature_server_password :
      String) :
    Except PyError (String × String × String) × List Event :=
  let container_image_signature_url :=
    signature_url signature_server_url container_image_signature_name
  match fs container_image_signature_file_path with
  | none =>
    (Except.error (PyError.fileNotFound container_image_signature_file_path), [])
  | some container_image_signature_file_contents =>
    let signature_file_md5 := md5_hexdigest container_image_signature_file_contents
    let signature_file_sha1 := sha1_hexdigest container_image_signature_file_contents
    let args := curl_args signature_file_sha1 signature_file_md5
      signature_server_username signature_server_password
      container_image_signature_file_path container_image_signature_url
    match net args with
    | none =>
      (Except.ok (container_image_signature_url, signature_file_md5,
        signature_file_sha1),
       [Event.fileRead container_image_signature_file_path, Event.curlPut args])
    | some f =>
      (Except.error (PyError.runtimeError
        ("Unexpected error curling signature file to signature server: " ++
          sh_error_str args f)),
       [Event.fileRead container_image_signature_file_path, Event.curlPut args])

/-- `CurlPush._run_step`.  `config` supplies the three required configuration
values (validated by the framework before the step runs); `results` supplies
prior-step result values by artifact name (`get_result_value`). -/
def run_step (config : String → String) (results : String → Option String)
    (fs : String → Option (List Nat)) (net : List String → Option ShFailure) :
    Except PyError StepResult × List Event :=
  let step_result := StepResult.from_step_implementer
  let signature_server_url := config "container-image-signature-server-url"
  let signature_server_username := config "container-image-signature-server-username"
  let signature_server_password := config "container-image-signature-server-password"
  match results "container-image-signature-file-path" with
  | none =>
    (Except.ok { step_result with
        success := false,
        message := "Missing container-image-signature-file-path" },
     [Event.getResultValue "container-image-signature-file-path"])
  | some container_image_signature_file_path =>
    match results "container-image-signature-name" with
    | none =>
      (Except.ok { step_result with
          success := false,
          message := "Missing container-image-signature-name" },
       [Event.getResultValue "container-image-signature-file-path",
        Event.getResultValue "container-image-signature-name"])
    | some container_image_signature_name =>
      match curl_file fs net container_image_signature_file_path
          container_image_signature_name signature_server_url
          signature_server_username signature_server_password with
      | (Except.error e, tr) =>
        (Except.error e,
         Event.getResultValue "container-image-signature-file-path" ::
           Event.getResultValue "container-image-signature-name" :: tr)
      | (Except.ok (container_image_signature_url, signature_file_md5,
          signature_file_sha1), tr) =>
        (Except.ok { step_result with
            artifacts :=
              [("container-image-signature-url", container_image_signature_url),
               ("container-image-signature-file-md5", signature_file_md5),
               ("container-image-signature-file-sha1", signature_file_sha1)] },
         Event.getResultValue "container-image-signature-file-path" ::
           Event.getResultValue "container-image-signature-name" :: tr)

/-! ### Spec-side definition for the refinement comparison in C2 -/

/-- The URL-stripping rule as the spec words it: "strip exactly one trailing
`/`, via a single-application suffix match" — if the last character is `/`,
drop it, otherwise leave the string unchanged. -/
def spec_strip_one_trailing_slash (s : String) : String :=
  String.mk (spec_strip_rev s.data.reverse).reverse
where
  spec_strip_rev : List Char → List Char
    | [] => []
    | c :: rest => if c = '/' then rest else c :: rest

/-! ### Concrete environments used by witnesses and the end-to-end scenario -/

/-- A filesystem holding one readable file whose contents are `b"hello"`. -/
def fs_hello : String → Option (List Nat) :=
  fun p => if p = "/tmp/sig/signature-1" then some hello_bytes else none

/-- A transport on which every `curl` invocation exits 0. -/
def net_ok : List String → Option ShFailure := fun _ => none

/-- A transport on which every `curl` invocation fails (curl exits 22 on an
HTTP error status under `-f`). -/
def net_fail : List String → Option ShFailure :=
  fun _ => some ⟨22, "curl: (22) The requested URL returned error: 403", ""⟩

/-- Configuration as the framework would supply it. -/
def config0 : String → String :=
  fun k =>
    if k = "container-image-signature-server-url" then "https://sigserver.example.com/sigs"
    else if k = "container-image-signature-server-username" then "user"
    else "pass"

/-- Prior-step results with both required keys present. -/
def results0 : String → Option String :=
  fun k =>
    if k = "container-image-signature-file-path" then some "/tmp/sig/signature-1"
    else if k = "container-image-signature-name" then some "demo@sha256=deadbeef/signature-1"
    else none

/-- The wrapped `RuntimeError` message, if the outcome is one (else `""`). -/
def error_msg (e : Except PyError (String × String × String)) : String :=
  match e with
  | Except.error (PyError.runtimeError m) => m
  | _ => ""

/-- Whether the outcome is the wrapped `RuntimeError`. -/
def is_runtime_error (e : Except PyError (String × String × String)) : Bool :=
  match e with
  | Except.error (PyError.runtimeError _) => true
  | _ => false

/-! ### Helper lemmas -/

deriving instance DecidableEq for Except

theorem str_append_assoc (a b c : String) : a ++ b ++ c = a ++ (b ++ c) :=
  String.ext (by simp)

/-- On a readable file, a successful `__curl_file` call returns exactly the
constructed URL and the two digests of the file contents. -/
theorem curl_file_ok_eq (fs : String → Option (List Nat))
    (net : List String → Option ShFailure)
    (fp nm surl user pass : String) (contents : List Nat)
    (t : String × String × String)
    (h : fs fp = some contents)
    (hok : (curl_file fs net fp nm surl user pass).1 = Except.ok t) :
    t = (signature_url surl nm, md5_hexdigest contents, sha1_hexdigest contents) := by
  simp only [curl_file, h] at hok
  split at hok <;> simp_all

/-! ### Claims -/

/-- C3: whenever the prior-step result `container-image-signature-file-path` or
`container-image-signature-name` is absent, `_run_step` returns a failed
(`success = false`), non-throwing step result whose message names the missing
key, and the event trace shows no file read and no network activity before
returning. -/
theorem C3_missing_result_short_circuits (config : String → String)
    (results : String → Option String) (fs : String → Option (List Nat))
    (net : List String → Option ShFailure) :
    (results "container-image-signature-file-path" = none →
      run_step config results fs net =
        (Except.ok ⟨false, "Missing container-image-signature-file-path", []⟩,
         [Event.getResultValue "container-image-signature-file-path"])) ∧
    (∀ fp, results "container-image-signature-file-path" = some fp →
      results "container-image-signature-name" = none →
      run_step config results fs net =
        (Except.ok ⟨false, "Missing container-image-signature-name", []⟩,
         [Event.getResultValue "container-image-signature-file-path",
          Event.getResultValue "container-image-signature-name"])) := by
  constructor
  · intro h
    simp [run_step, h, StepResult.from_step_implementer]
  · intro fp h1 h2
    simp [run_step, h1, h2, StepResult.from_step_implementer]

/-- Witness for C3 at a concrete environment with both keys absent (first
conjunct) — the step result is the failed one naming the file-path key and the
trace holds only the lookup. -/
theorem C3_witness :
    (fun _ : String => (none : Option String)) "container-image-signature-file-path" =
      none ∧
    run_step (fun _ => "") (fun _ => none) (fun _ => none) (fun _ => none) =
      (Except.ok ⟨false, "Missing container-image-signature-file-path", []⟩,
       [Event.getResultValue "container-image-signature-file-path"]) :=
  ⟨rfl,
   (C3_missing_result_short_circuits (fun _ => "") (fun _ => none) (fun _ => none)
      (fun _ => none)).1 rfl⟩

/-- C9: the two prior-step result values are checked in a fixed order; when both
are absent the failed result's message names only
`container-image-signature-file-path`, and `container-image-signature-name` is
never consulted (no lookup event for it appears in the trace). -/
theorem C9_lookup_order (config : String → String)
    (results : String → Option String) (fs : String → Option (List Nat))
    (net : List String → Option ShFailure)
    (h : results "container-image-signature-file-path" = none)
    (_h2 : results "container-image-signature-name" = none) :
    (run_step config results fs net).1 =
      Except.ok ⟨false, "Missing container-image-signature-file-path", []⟩ ∧
    Event.getResultValue "container-image-signature-name" ∉
      (run_step config results fs net).2 := by
  simp [run_step, h, StepResult.from_step_implementer]

/-- Witness for C9 at a concrete environment with both keys absent. -/
theorem C9_witness :
    ((fun _ : String => (none : Option String)) "container-image-signature-file-path" =
        none ∧
      (fun _ : String => (none : Option String)) "container-image-signature-name" =
        none) ∧
    ((run_step (fun _ => "") (fun _ => none) (fun _ => none) (fun _ => none)).1 =
        Except.ok ⟨false, "Missing container-image-signature-file-path", []⟩ ∧
      Event.getResultValue "container-image-signature-name" ∉
        (run_step (fun _ => "") (fun _ => none) (fun _ => none) (fun _ => none)).2) :=
  ⟨⟨rfl, rfl⟩,
   C9_lookup_order (fun _ => "") (fun _ => none) (fun _ => none) (fun _ => none)
     rfl rfl⟩

/-- C6: when `filePath` does not reference an existing readable file,
`__curl_file` fails with `FileNotFoundError` and the event trace is empty — in
particular a stub transport observes zero calls. -/
theorem C6_missing_file_no_network (fs : String → Option (List Nat))
    (net : List String → Option ShFailure) (fp nm surl user pass : String)
    (h : fs fp = none) :
    (curl_file fs net fp nm surl user pass).1 =
      Except.error (PyError.fileNotFound fp) ∧
    (curl_file fs net fp nm surl user pass).2 = [] := by
  simp [curl_file, h]

/-- Witness for C6: `fs_hello` has no file at `/missing`, and the call fails
with `FileNotFoundError` having made no file read and no network call. -/
theorem C6_witness :
    fs_hello "/missing" = none ∧
    ((curl_file fs_hello net_fail "/missing" "nm" "https://s" "u" "p").1 =
        Except.error (PyError.fileNotFound "/missing") ∧
      (curl_file fs_hello net_fail "/missing" "nm" "https://s" "u" "p").2 = []) :=
  ⟨by decide, C6_missing_file_no_network fs_hello net_fail "/missing" "nm"
    "https://s" "u" "p" (by decide)⟩

/-- C8: end-to-end — for file contents `b"hello"`, server base URL
`https://sigserver.example.com/sigs` and object name
`demo@sha256=deadbeef/signature-1`, a successful PUT yields exactly that URL
with md5 `5d41402abc4b2a76b9719d911017c592` and sha1
`aaf4c61ddcc5e8a2dabede0f3b482cd9aea9434d`. -/
theorem C8_end_to_end :
    curl_file fs_hello net_ok "/tmp/sig/signature-1"
      "demo@sha256=deadbeef/signature-1" "https://sigserver.example.com/sigs"
      "user" "pass" =
    (Except.ok ("https://sigserver.example.com/sigs/demo@sha256=deadbeef/signature-1",
        "5d41402abc4b2a76b9719d911017c592",
        "aaf4c61ddcc5e8a2dabede0f3b482cd9aea9434d"),
     [Event.fileRead "/tmp/sig/signature-1",
      Event.curlPut (curl_args "aaf4c61ddcc5e8a2dabede0f3b482cd9aea9434d"
        "5d41402abc4b2a76b9719d911017c592" "user" "pass" "/tmp/sig/signature-1"
        "https://sigserver.example.com/sigs/demo@sha256=deadbeef/signature-1")]) := by
  decide

/-- C1: on a readable file the md5 and sha1 values returned by a successful
upload equal the lowercase hex MD5/SHA-1 digests of the complete file contents,
and both digests are computed before any network activity: the checksum headers
of the (only) curl call already carry the digests of the full contents, the
file read precedes the curl call in the trace, and this holds for every
transport outcome. -/
theorem C1_digests_of_contents (fs : String → Option (List Nat))
    (net : List String → Option ShFailure) (fp nm surl user pass : String)
    (contents : List Nat) (h : fs fp = some contents) :
    (∀ u m s, (curl_file fs net fp nm surl user pass).1 = Except.ok (u, m, s) →
      m = md5_hexdigest contents ∧ s = sha1_hexdigest contents) ∧
    (∀ args, Event.curlPut args ∈ (curl_file fs net fp nm surl user pass).2 →
      ("X-Checksum-Sha1:" ++ sha1_hexdigest contents) ∈ args ∧
      ("X-Checksum-MD5:" ++ md5_hexdigest contents) ∈ args ∧
      (curl_file fs net fp nm surl user pass).2 =
        [Event.fileRead fp, Event.curlPut args]) := by
  constructor
  · intro u m s hok
    have ht := curl_file_ok_eq fs net fp nm surl user pass contents (u, m, s) h hok
    simp only [Prod.mk.injEq] at ht
    exact ⟨ht.2.1, ht.2.2⟩
  · intro args hmem
    simp only [curl_file, h] at hmem ⊢
    split <;> rename_i hn <;> rw [hn] at hmem <;> simp_all [curl_args]

/-- Witness for C1 on the `b"hello"` file with a succeeding transport. -/
theorem C1_witness :
    fs_hello "/tmp/sig/signature-1" = some hello_bytes ∧
    ((∀ u m s,
        (curl_file fs_hello net_ok "/tmp/sig/signature-1" "nm" "https://s" "u" "p").1 =
          Except.ok (u, m, s) →
        m = md5_hexdigest hello_bytes ∧ s = sha1_hexdigest hello_bytes) ∧
      (∀ args, Event.curlPut args ∈
          (curl_file fs_hello net_ok "/tmp/sig/signature-1" "nm" "https://s" "u" "p").2 →
        ("X-Checksum-Sha1:" ++ sha1_hexdigest hello_bytes) ∈ args ∧
        ("X-Checksum-MD5:" ++ md5_hexdigest hello_bytes) ∈ args ∧
        (curl_file fs_hello net_ok "/tmp/sig/signature-1" "nm" "https://s" "u" "p").2 =
          [Event.fileRead "/tmp/sig/signature-1", Event.curlPut args])) :=
  ⟨by decide,
   C1_digests_of_contents fs_hello net_ok "/tmp/sig/signature-1" "nm" "https://s"
     "u" "p" hello_bytes (by decide)⟩

/-- C5: no partial-success state — whenever `_run_step` returns a step result
(rather than letting the `RuntimeError` escape), either all three artifacts
`container-image-signature-url`, `container-image-signature-file-md5`,
`container-image-signature-file-sha1` were added (successful PUT) or none was
(precondition failure). -/
theorem C5_all_or_none_artifacts (config : String → String)
    (results : String → Option String) (fs : String → Option (List Nat))
    (net : List String → Option ShFailure) (r : StepResult)
    (h : (run_step config results fs net).1 = Except.ok r) :
    (r.artifacts.map Prod.fst =
        ["container-image-signature-url", "container-image-signature-file-md5",
         "container-image-signature-file-sha1"] ∧ r.success = true) ∨
    (r.artifacts = [] ∧ r.success = false) := by
  simp only [run_step, StepResult.from_step_implementer] at h
  split at h
  · right
    simp only [Except.ok.injEq] at h
    rw [← h]
    exact ⟨rfl, rfl⟩
  · split at h
    · right
      simp only [Except.ok.injEq] at h
      rw [← h]
      exact ⟨rfl, rfl⟩
    · split at h
      · simp at h
      · left
        simp only [Except.ok.injEq] at h
        rw [← h]
        exact ⟨rfl, rfl⟩

/-- The step result produced by the concrete successful end-to-end run, used by
the C5 witness. -/
def run_result0 : StepResult :=
  ⟨true, "",
   [("container-image-signature-url",
     "https://sigserver.example.com/sigs/demo@sha256=deadbeef/signature-1"),
    ("container-image-signature-file-md5", "5d41402abc4b2a76b9719d911017c592"),
    ("container-image-signature-file-sha1",
     "aaf4c61ddcc5e8a2dabede0f3b482cd9aea9434d")]⟩

/-- Witness for C5 on a successful end-to-end run: the returned result holds
exactly the three artifacts. -/
theorem C5_witness :
    (run_step config0 results0 fs_hello net_ok).1 = Except.ok run_result0 ∧
    ((run_result0.artifacts.map Prod.fst =
        ["container-image-signature-url", "container-image-signature-file-md5",
         "container-image-signature-file-sha1"] ∧ run_result0.success = true) ∨
      (run_result0.artifacts = [] ∧ run_result0.success = false)) :=
  ⟨by decide,
   C5_all_or_none_artifacts config0 results0 fs_hello net_ok run_result0
     (by decide)⟩

/-- C10: credential noninterference — two invocations differing only in
username and password (same filesystem contents, same base URL and object name)
on which the PUT succeeds return identical `(url, md5, sha1)` triples. -/
theorem C10_credential_noninterference (fs : String → Option (List Nat))
    (net1 net2 : List String → Option ShFailure) (fp nm surl : String)
    (u1 p1 u2 p2 : String) (contents : List Nat)
    (t1 t2 : String × String × String) (h : fs fp = some contents)
    (h1 : (curl_file fs net1 fp nm surl u1 p1).1 = Except.ok t1)
    (h2 : (curl_file fs net2 fp nm surl u2 p2).1 = Except.ok t2) :
    t1 = t2 := by
  rw [curl_file_ok_eq fs net1 fp nm surl u1 p1 contents t1 h h1,
    curl_file_ok_eq fs net2 fp nm surl u2 p2 contents t2 h h2]

/-- Witness for C10: two concrete runs with different credentials return the
same triple. -/
theorem C10_witness :
    (fs_hello "/tmp/sig/signature-1" = some hello_bytes ∧
      (curl_file fs_hello net_ok "/tmp/sig/signature-1" "nm" "https://s" "user"
          "pass").1 =
        Except.ok ("https://s/nm", md5_hexdigest hello_bytes,
          sha1_hexdigest hello_bytes) ∧
      (curl_file fs_hello net_ok "/tmp/sig/signature-1" "nm" "https://s" "admin"
          "hunter2").1 =
        Except.ok ("https://s/nm", md5_hexdigest hello_bytes,
          sha1_hexdigest hello_bytes)) ∧
    (("https://s/nm", md5_hexdigest hello_bytes, sha1_hexdigest hello_bytes) :
        String × String × String) =
      ("https://s/nm", md5_hexdigest hello_bytes, sha1_hexdigest hello_bytes) :=
  ⟨⟨by decide, by decide, by decide⟩,
   C10_credential_noninterference fs_hello net_ok net_ok "/tmp/sig/signature-1"
     "nm" "https://s" "user" "pass" "admin" "hunter2" hello_bytes _ _ (by decide)
     (by decide) (by decide)⟩

/-- On reversed character lists without `'\n'`, the source's `re.sub(r'/$','')`
agrees with the spec's strip-exactly-one-trailing-slash rule. -/
theorem sub_slash_eq_spec (l : List Char) (h : Char.ofNat 10 ∉ l) :
    sub_slash_dollar_rev l = spec_strip_one_trailing_slash.spec_strip_rev l := by
  match l with
  | [] => rfl
  | [c1] => rfl
  | c1 :: c2 :: rest =>
    have hc1 : c1 ≠ Char.ofNat 10 := fun he =>
      h (by rw [he]; exact List.mem_cons_self _ _)
    simp only [sub_slash_dollar_rev, spec_strip_one_trailing_slash.spec_strip_rev]
    rw [if_neg (fun hand => hc1 (by simpa using hand.1))]

/-- C2 as stated is false: Python's `$` also matches just before a final
newline, so for the base URL `"https://example.com/sig/\n"` — which does not
end in `'/'` — the code still removes the `'/'` standing before the newline.
The claimed single-trailing-slash-strip rule predicts
`"https://example.com/sig/\n/name"`, but the code produces
`"https://example.com/sig\n/name"`. -/
theorem C2_counterexample :
    signature_url "https://example.com/sig/\n" "name" =
      "https://example.com/sig\n/name" ∧
    spec_strip_one_trailing_slash "https://example.com/sig/\n" ++ "/" ++ "name" =
      "https://example.com/sig/\n/name" ∧
    ("https://example.com/sig\n/name" : String) ≠
      "https://example.com/sig/\n/name" := by
  refine ⟨by decide, by decide, by decide⟩

/-- C2 (amended): URL construction removes exactly one `'/'` via a single
application of the Python pattern `/$` — which matches a trailing `'/'` or one
standing immediately before a final newline — and then appends `'/'` and the
object name unchanged.  For every base URL containing no newline this is
exactly the spec's strip-one-trailing-slash rule, and in particular the base
`"https://example.com/sig//"` with object name `"name"` yields
`"https://example.com/sig//name"` (only one `'/'` removed, no further
normalization). -/
theorem C2_strip_one_slash :
    signature_url "https://example.com/sig//" "name" =
      "https://example.com/sig//name" ∧
    ∀ base nm : String, Char.ofNat 10 ∉ base.data →
      signature_url base nm = spec_strip_one_trailing_slash base ++ "/" ++ nm := by
  constructor
  · decide
  · intro base nm h
    unfold signature_url re_sub_slash_dollar spec_strip_one_trailing_slash
    rw [sub_slash_eq_spec base.data.reverse (by simpa using h)]

/-- Witness for C2 at the two-trailing-slash base (which holds no newline). -/
theorem C2_witness :
    Char.ofNat 10 ∉ ("https://example.com/sig//" : String).data ∧
    signature_url "https://example.com/sig//" "name" =
      spec_strip_one_trailing_slash "https://example.com/sig//" ++ "/" ++ "name" :=
  ⟨by decide,
   C2_strip_one_slash.2 "https://example.com/sig//" "name" (by decide)⟩

/-- C4 as stated is false: the wrapping prefix in the code is
`"Unexpected error curling signature file to signature server: "`, not the
claimed `"unexpected error uploading signature file"`.  On a concrete failing
PUT the raised `RuntimeError` message does not start with the claimed prefix. -/
theorem C4_counterexample :
    is_runtime_error
      (curl_file fs_hello net_fail "/tmp/sig/signature-1" "nm" "https://s" "u"
        "p").1 = true ∧
    ("unexpected error uploading signature file" : String).data.isPrefixOf
      (error_msg
        (curl_file fs_hello net_fail "/tmp/sig/signature-1" "nm" "https://s" "u"
          "p").1).data = false ∧
    ("Unexpected error curling signature file to signature server: " :
        String).data.isPrefixOf
      (error_msg
        (curl_file fs_hello net_fail "/tmp/sig/signature-1" "nm" "https://s" "u"
          "p").1).data = true := by
  refine ⟨by decide, by decide, by decide⟩

/-- C4 (amended): for every transport-layer failure of the PUT the error raised
to the caller embeds the underlying transport error text (the stringified
`sh.ErrorReturnCode`) verbatim, wrapped with the fixed prefix
`"Unexpected error curling signature file to signature server: "`. -/
theorem C4_transport_error_wrapped (fs : String → Option (List Nat))
    (net : List String → Option ShFailure) (fp nm surl user pass : String)
    (contents : List Nat) (f : ShFailure) (h : fs fp = some contents)
    (hn : net (curl_args (sha1_hexdigest contents) (md5_hexdigest contents) user
        pass fp (signature_url surl nm)) = some f) :
    (curl_file fs net fp nm surl user pass).1 =
      Except.error (PyError.runtimeError
        ("Unexpected error curling signature file to signature server: " ++
          sh_error_str
            (curl_args (sha1_hexdigest contents) (md5_hexdigest contents) user
              pass fp (signature_url surl nm)) f)) := by
  simp [curl_file, h, hn]

/-- Witness for C4 (amended) on a concrete failing transport. -/
theorem C4_witness :
    (fs_hello "/tmp/sig/signature-1" = some hello_bytes ∧
      net_fail
        (curl_args (sha1_hexdigest hello_bytes) (md5_hexdigest hello_bytes) "u"
          "p" "/tmp/sig/signature-1" (signature_url "https://s" "nm")) =
        some ⟨22, "curl: (22) The requested URL returned error: 403", ""⟩) ∧
    (curl_file fs_hello net_fail "/tmp/sig/signature-1" "nm" "https://s" "u"
        "p").1 =
      Except.error (PyError.runtimeError
        ("Unexpected error curling signature file to signature server: " ++
          sh_error_str
            (curl_args (sha1_hexdigest hello_bytes) (md5_hexdigest hello_bytes)
              "u" "p" "/tmp/sig/signature-1" (signature_url "https://s" "nm"))
            ⟨22, "curl: (22) The requested URL returned error: 403", ""⟩)) :=
  ⟨⟨by decide, by decide⟩,
   C4_transport_error_wrapped fs_hello net_fail "/tmp/sig/signature-1" "nm"
     "https://s" "u" "p" hello_bytes
     ⟨22, "curl: (22) The requested URL returned error: 403", ""⟩ (by decide)
     (by decide)⟩

/-- C7: for every transport failure the error raised by the upload operation
contains the target URL in its message (the `sh` exception text embeds the full
curl command line, whose final argument is the URL the PUT was directed at). -/
theorem C7_error_names_url (fs : String → Option (List Nat))
    (net : List String → Option ShFailure) (fp nm surl user pass : String)
    (contents : List Nat) (f : ShFailure) (h : fs fp = some contents)
    (hn : net (curl_args (sha1_hexdigest contents) (md5_hexdigest contents) user
        pass fp (signature_url surl nm)) = some f) :
    ∃ p q, (curl_file fs net fp nm surl user pass).1 =
      Except.error (PyError.runtimeError (p ++ signature_url surl nm ++ q)) := by
  refine ⟨"Unexpected error curling signature file to signature server: " ++
    ("\n\n  RAN: " ++
      (sh_full_cmd (curl_args (sha1_hexdigest contents) (md5_hexdigest contents)
          user pass fp (signature_url surl nm)).dropLast ++ " ")),
    "\n\n  STDOUT:\n" ++ f.stdout_s ++ "\n\n  STDERR:\n" ++ f.stderr_s, ?_⟩
  simp only [curl_file, h, hn]
  simp only [sh_error_str, sh_full_cmd, curl_args, List.dropLast, List.foldl,
    str_append_assoc]

/-- Witness for C7 on a concrete failing transport. -/
theorem C7_witness :
    (fs_hello "/tmp/sig/signature-1" = some hello_bytes ∧
      net_fail
        (curl_args (sha1_hexdigest hello_bytes) (md5_hexdigest hello_bytes) "u"
          "p" "/tmp/sig/signature-1" (signature_url "https://s" "nm")) =
        some ⟨22, "curl: (22) The requested URL returned error: 403", ""⟩) ∧
    (∃ p q,
      (curl_file fs_hello net_fail "/tmp/sig/signature-1" "nm" "https://s" "u"
          "p").1 =
        Except.error (PyError.runtimeError
          (p ++ signature_url "https://s" "nm" ++ q))) :=
  ⟨⟨by decide, by decide⟩,
   C7_error_names_url fs_hello net_fail "/tmp/sig/signature-1" "nm" "https://s"
     "u" "p" hello_bytes
     ⟨22, "curl: (22) The requested URL returned error: 403", ""⟩ (by decide)
     (by decide)⟩

end CurlPush
